import Mathlib

/-!
Verification of two source fragments of the O3DE-style engine excerpt:
FullscreenTrianglePass.cpp (render pass leaf) and GraphDocumentView.cpp
(graph editor view leaf).  Machine integers are modelled as Nat/Int with
explicit wrapping where the C++ code converts between integer widths;
the float fields of RHI Viewport are modelled as rationals, with the
float-to-uint32 conversion modelled as truncation toward zero (exact
for the in-range values on which the C++ conversion is defined).
-/

namespace AtomExcerpt

/-! ## Basic scalar models -/

/-- Model of static_cast from float (modelled as a rational) to uint32_t:
truncation toward zero.  On negative or out-of-range floats the C++ cast
is undefined behaviour; the model maps negatives to 0. -/
def f32ToU32 (q : ℚ) : ℕ := q.floor.toNat

/-- Model of static_cast from int32_t to uint32_t: wrap modulo 2^32. -/
def i32ToU32 (i : ℤ) : ℕ := (i % 4294967296).toNat

/-- Model of storing a uint32_t value into an int32_t field: values at or
above 2^31 wrap to negative (two-complement). -/
def u32ToI32 (n : ℕ) : ℤ := if n < 2147483648 then (n : ℤ) else (n : ℤ) - 4294967296

/-! ## RHI geometry types used by FrameBeginInternal -/

/-- Model of RHI Viewport: float rectangle, modelled over the rationals. -/
structure Viewport where
  m_minX : ℚ := 0
  m_minY : ℚ := 0
  m_maxX : ℚ := 0
  m_maxY : ℚ := 0
  deriving DecidableEq, Repr

/-- Model of RHI Scissor: int32_t rectangle. -/
structure Scissor where
  m_minX : ℤ := 0
  m_minY : ℤ := 0
  m_maxX : ℤ := 0
  m_maxY : ℤ := 0
  deriving DecidableEq, Repr

/-- Model of RHI Size (the bound output image extent); fields are uint32_t. -/
structure RHISize where
  m_width : ℕ := 0
  m_height : ℕ := 0
  deriving DecidableEq, Repr

/-- Model of RPI FramePrepareParams: the incoming per-frame viewport and
scissor the pass inherits. -/
structure FramePrepareParams where
  m_viewportState : Viewport := {}
  m_scissorState : Scissor := {}
  deriving DecidableEq, Repr

/-- The viewport clamping performed by FullscreenTrianglePass::FrameBeginInternal
(lines 212-215): maxX and maxY first, each the min of the incoming value cast
to uint32_t and the image extent, cast back to float; then minX and minY, each
the float min of the incoming value and the already-clamped max. -/
def clampViewport (params : Viewport) (targetImageSize : RHISize) : Viewport :=
  let maxX : ℚ := (min (f32ToU32 params.m_maxX) targetImageSize.m_width : ℕ)
  let maxY : ℚ := (min (f32ToU32 params.m_maxY) targetImageSize.m_height : ℕ)
  { m_maxX := maxX
    m_maxY := maxY
    m_minX := min params.m_minX maxX
    m_minY := min params.m_minY maxY }

/-- The scissor clamping performed by FullscreenTrianglePass::FrameBeginInternal
(lines 217-220): maxX and maxY first, each the min of the incoming int32_t value
cast to uint32_t and the image extent, stored back into the int32_t field; then
minX and minY, each the int32_t min of the incoming value and the already-clamped
max. -/
def clampScissor (params : Scissor) (targetImageSize : RHISize) : Scissor :=
  let maxX : ℤ := u32ToI32 (min (i32ToU32 params.m_maxX) targetImageSize.m_width)
  let maxY : ℤ := u32ToI32 (min (i32ToU32 params.m_maxY) targetImageSize.m_height)
  { m_maxX := maxX
    m_maxY := maxY
    m_minX := min params.m_minX maxX
    m_minY := min params.m_minY maxY }

/-! ## Asset and shader model

The RHI/RPI framework types referenced by FullscreenTrianglePass.cpp are not
part of the excerpt; each is modelled with exactly the structure the .cpp file
observes of it. -/

/-- Model of AZ Data AssetId: validity is whether the guid is non-null. -/
structure AssetId where
  m_guid : ℕ := 0
  deriving DecidableEq, Repr

/-- AssetId validity check (AssetId IsValid): the guid is not the null guid. -/
def AssetId.IsValid (a : AssetId) : Bool := a.m_guid ≠ 0

/-- Model of an AssetReference as used by FullscreenTrianglePassData
(m_shaderAsset): an asset id plus a file path. -/
structure AssetReference where
  m_assetId : AssetId := {}
  m_filePath : String := ""
  deriving DecidableEq, Repr

/-- Model of a ShaderAsset handle (Data Asset of ShaderAsset): the .cpp only
inspects its id.  A default-constructed handle has an invalid id. -/
structure ShaderAsset where
  m_assetId : AssetId := {}
  deriving DecidableEq, Repr

/-- Model of the FullscreenTrianglePassData configuration block: a shader
asset reference and a stencil reference value (uint32_t). -/
structure FullscreenTrianglePassData where
  m_shaderAsset : AssetReference := {}
  m_stencilRef : ℕ := 0
  deriving DecidableEq, Repr

/-- Model of the PassDescriptor: the .cpp reads its optional
FullscreenTrianglePassData (via PassUtils GetPassData, which returns null when
the descriptor holds no data of that type) and its SRG data mappings (via
PassUtils BindDataMappingsToSrg).  Data mappings are opaque here. -/
structure PassDescriptor where
  passData : Option FullscreenTrianglePassData := none
  dataMappings : List ℕ := []
  deriving DecidableEq, Repr

/-- Model of an SRG layout as observed by the .cpp: only its name is read. -/
structure SrgLayout where
  name : ℕ := 0
  deriving DecidableEq, Repr

/-- Model of a ShaderResourceGroup instance: the asset and supervariant it was
created from, the layout name it was created for, and the data mappings bound
into it by PassUtils BindDataMappingsToSrg. -/
structure ShaderResourceGroup where
  srcAsset : AssetId := {}
  supervariant : ℕ := 0
  layoutName : ℕ := 0
  boundDataMappings : List ℕ := []
  deriving DecidableEq, Repr

/-- ShaderResourceGroup Create, as called at line 125: creates an SRG from the
shader asset, supervariant index and layout name, with nothing bound yet. -/
def ShaderResourceGroup.create (asset : AssetId) (supervariant : ℕ)
    (layoutName : ℕ) : ShaderResourceGroup :=
  { srcAsset := asset, supervariant := supervariant, layoutName := layoutName }

/-- PassUtils BindDataMappingsToSrg, as called at line 133: binds the
descriptor data mappings into the SRG. -/
def bindDataMappingsToSrg (descriptor : PassDescriptor)
    (srg : ShaderResourceGroup) : ShaderResourceGroup :=
  { srg with boundDataMappings := descriptor.dataMappings }

/-- Model of a Shader instance as observed by the .cpp: its source asset id,
its supervariant index, the result of FindShaderResourceGroupLayout at the
Pass binding slot (the only slot this file queries), and the result of
CreateDefaultDrawSrg (the bool argument only controls when the draw SRG is
compiled, not whether it is created). -/
structure Shader where
  m_assetId : AssetId := {}
  supervariantIndex : ℕ := 0
  passSrgLayout : Option SrgLayout := none
  defaultDrawSrg : Option ShaderResourceGroup := none
  deriving DecidableEq, Repr

/-! ## Pipeline state and draw item model -/

/-- Model of RHI PrimitiveTopology. -/
inductive PrimitiveTopology where
  | Undefined
  | PointList
  | LineList
  | TriangleList
  | TriangleStrip
  deriving DecidableEq, Repr

/-- Model of RHI InputStreamLayout: the topology and the declared stream
channels/buffer descriptors (none are ever added in this file). -/
structure InputStreamLayout where
  topology : PrimitiveTopology := .Undefined
  streamChannels : List ℕ := []
  finalized : Bool := false
  deriving DecidableEq, Repr

/-- Model of RPI PipelineStateForDraw, tracking exactly the mutations the
.cpp performs on it: which shader (and optional shader-option list) it was
initialized from, the SRG used as shader-variant fallback, whether render
target output was taken from the pass, and the input stream layout. -/
structure PipelineStateForDraw where
  initializedShader : Option Shader := none
  initShaderOptions : Option (List ℕ) := none
  srgVariantFallback : Option ShaderResourceGroup := none
  outputFromPass : Bool := false
  inputStreamLayout : Option InputStreamLayout := none
  deriving DecidableEq, Repr

/-- PipelineStateForDraw Init(shader), line 104: re-derives the descriptor
from the shader, discarding previous configuration. -/
def PipelineStateForDraw.init (shader : Shader) : PipelineStateForDraw :=
  { initializedShader := some shader }

/-- PipelineStateForDraw Init(shader, shaderOptions), line 170. -/
def PipelineStateForDraw.initWithOptions (shader : Shader)
    (shaderOptions : List ℕ) : PipelineStateForDraw :=
  { initializedShader := some shader, initShaderOptions := some shaderOptions }

/-- PipelineStateForDraw UpdateSrgVariantFallback, lines 141 and 171. -/
def PipelineStateForDraw.updateSrgVariantFallback
    (s : PipelineStateForDraw) (srg : Option ShaderResourceGroup) :
    PipelineStateForDraw :=
  { s with srgVariantFallback := srg }

/-- Model of a finalized RHI PipelineState: a snapshot of the descriptor it
was finalized from. -/
structure PipelineState where
  desc : PipelineStateForDraw
  deriving DecidableEq, Repr

/-- PipelineStateForDraw Finalize, line 162. -/
def PipelineStateForDraw.finalize (s : PipelineStateForDraw) : PipelineState :=
  ⟨s⟩

/-- Model of RHI DrawLinear: a non-indexed draw. Defaults as in the RHI
(one instance, zero vertices, zero offsets). -/
structure DrawLinear where
  m_instanceCount : ℕ := 1
  m_instanceOffset : ℕ := 0
  m_vertexCount : ℕ := 0
  m_vertexOffset : ℕ := 0
  deriving DecidableEq, Repr

/-- Model of RHI DrawIndexed arguments (never built by this file). -/
structure DrawIndexed where
  m_indexCount : ℕ := 0
  deriving DecidableEq, Repr

/-- Model of RHI DrawArguments: either a linear (non-indexed) or an indexed
draw. -/
inductive DrawArguments where
  | linear (d : DrawLinear)
  | indexed (d : DrawIndexed)
  deriving DecidableEq, Repr

/-- Whether draw arguments are a non-indexed (linear) draw. -/
def DrawArguments.isLinear : DrawArguments → Bool
  | .linear _ => true
  | .indexed _ => false

/-- Model of RHI DrawItem: the fields the .cpp writes (arguments, pipeline
state, stencil ref) plus the geometry-buffer references it deliberately never
sets (stream buffer views and index buffer view stay at their defaults). -/
structure DrawItem where
  m_arguments : DrawArguments := .linear {}
  m_pipelineState : Option PipelineState := none
  m_stencilRef : ℕ := 0
  m_streamBufferViews : List ℕ := []
  m_indexBufferView : Option ℕ := none
  deriving DecidableEq, Repr

/-! ## The FullscreenTrianglePass state and operations -/

/-- State of a FullscreenTrianglePass: the member fields the .cpp reads or
writes, plus the observable side effects of the excerpt (the logged error
messages, whether QueueForInitialization was called, and which shader asset
the ShaderReloadNotificationBus handler is connected to). -/
structure Pass where
  m_passDescriptor : PassDescriptor := {}
  m_shader : Option Shader := none
  m_shaderResourceGroup : Option ShaderResourceGroup := none
  m_drawShaderResourceGroup : Option ShaderResourceGroup := none
  m_pipelineStateForDraw : PipelineStateForDraw := {}
  m_stencilRef : ℕ := 0
  m_item : DrawItem := {}
  m_viewportState : Viewport := {}
  m_scissorState : Scissor := {}
  loggedErrors : List String := []
  queuedForInitialization : Bool := false
  shaderReloadBusConnection : Option AssetId := none
  deriving DecidableEq, Repr

/-- Append an AZ-Error log message (AZ_Error logs and continues; it neither
throws nor terminates the process in release builds). -/
def Pass.logError (p : Pass) (msg : String) : Pass :=
  { p with loggedErrors := p.loggedErrors ++ [msg] }

/-- Environment supplied by the engine around LoadShader: the result of
RPI FindShaderAsset for an asset reference (total; a failed lookup returns a
handle with an invalid id) and the result of Shader FindOrCreate for a shader
asset (null on failure). -/
structure ShaderEnv where
  findShaderAsset : AssetId → String → ShaderAsset := fun _ _ => {}
  findOrCreate : ShaderAsset → Option Shader := fun _ => none

/-- FullscreenTrianglePass::UpdateSrgs (lines 114-142).  Returns immediately
when no shader is loaded.  Otherwise: if the shader has an SRG layout at the
Pass binding slot, recreate the pass SRG from it and bind the descriptor data
mappings; recreate the default draw SRG; update the pipeline-state SRG variant
fallback from the (possibly recreated) pass SRG. -/
def Pass.updateSrgs (p : Pass) : Pass :=
  match p.m_shader with
  | none => p
  | some shader =>
    let p1 :=
      match shader.passSrgLayout with
      | some passSrgLayout =>
        let srg := ShaderResourceGroup.create shader.m_assetId
          shader.supervariantIndex passSrgLayout.name
        let srg := bindDataMappingsToSrg p.m_passDescriptor srg
        { p with m_shaderResourceGroup := some srg }
      | none => p
    let p2 := { p1 with m_drawShaderResourceGroup := shader.defaultDrawSrg }
    let pso := p2.m_pipelineStateForDraw.updateSrgVariantFallback
      p2.m_shaderResourceGroup
    { p2 with m_pipelineStateForDraw := pso }

/-- FullscreenTrianglePass::LoadShader (lines 64-112).  Null pass data, an
unresolvable shader asset, or a null Shader FindOrCreate result each log an
error and return, leaving the state untouched.  On success: store the stencil
ref, initialize the pipeline state from the shader, update SRGs, queue the
pass for initialization and reconnect the shader-reload bus to the asset. -/
def Pass.loadShader (env : ShaderEnv) (p : Pass) : Pass :=
  match p.m_passDescriptor.passData with
  | none =>
    p.logError "Trying to construct without valid FullscreenTrianglePassData"
  | some passData =>
    let shaderAsset : ShaderAsset :=
      if passData.m_shaderAsset.m_assetId.IsValid then
        env.findShaderAsset passData.m_shaderAsset.m_assetId
          passData.m_shaderAsset.m_filePath
      else
        {}
    if shaderAsset.m_assetId.IsValid = false then
      p.logError "Failed to load shader"
    else
      match env.findOrCreate shaderAsset with
      | none => p.logError "Failed to load shader"
      | some shader =>
        let p1 := { p with
          m_shader := some shader
          m_stencilRef := passData.m_stencilRef
          m_pipelineStateForDraw := PipelineStateForDraw.init shader }
        let p2 := p1.updateSrgs
        { p2 with
          queuedForInitialization := true
          shaderReloadBusConnection := some shaderAsset.m_assetId }

/-- FullscreenTrianglePass constructor (lines 37-42): member initialization
followed by LoadShader. -/
def Pass.create (env : ShaderEnv) (descriptor : PassDescriptor) : Pass :=
  Pass.loadShader env { m_passDescriptor := descriptor }

/-- FullscreenTrianglePass::OnShaderReinitialized (lines 54-57). -/
def Pass.onShaderReinitialized (p : Pass) : Pass :=
  p.updateSrgs

/-- FullscreenTrianglePass::OnShaderAssetReinitialized (lines 59-62). -/
def Pass.onShaderAssetReinitialized (p : Pass) : Pass :=
  p.updateSrgs

/-- FullscreenTrianglePass::BuildDrawItem (lines 144-164): set the pipeline
output from the pass, give it a finalized input stream layout with
TriangleList topology and no streams, then fill the draw item with linear
(non-indexed) arguments of 3 vertices, the finalized pipeline state and the
stencil ref truncated to uint8_t.  The geometry-buffer references of the item
are purposefully never touched. -/
def Pass.buildDrawItem (p : Pass) : Pass :=
  let pipeline0 := { p.m_pipelineStateForDraw with outputFromPass := true }
  let inputStreamLayout : InputStreamLayout :=
    { topology := .TriangleList, finalized := true }
  let pipeline1 := { pipeline0 with inputStreamLayout := some inputStreamLayout }
  let draw : DrawLinear := { m_vertexCount := 3 }
  { p with
    m_pipelineStateForDraw := pipeline1
    m_item := { p.m_item with
      m_arguments := .linear draw
      m_pipelineState := some pipeline1.finalize
      m_stencilRef := p.m_stencilRef % 256 } }

/-- FullscreenTrianglePass::UpdateShaderOptions (lines 166-174): when a shader
is loaded, reinitialize the pipeline state with the options, update the SRG
variant fallback and rebuild the draw item; otherwise do nothing. -/
def Pass.updateShaderOptions (p : Pass) (shaderOptions : List ℕ) : Pass :=
  match p.m_shader with
  | some shader =>
    let p1 := { p with m_pipelineStateForDraw :=
      PipelineStateForDraw.initWithOptions shader shaderOptions }
    let pso := p1.m_pipelineStateForDraw.updateSrgVariantFallback
      p1.m_shaderResourceGroup
    let p2 := { p1 with m_pipelineStateForDraw := pso }
    p2.buildDrawItem
  | none => p

/-- FullscreenTrianglePass::InitializeInternal (lines 176-189): with no
shader loaded, log an error and return without building the draw item;
otherwise build it. -/
def Pass.initializeInternal (p : Pass) : Pass :=
  match p.m_shader with
  | none => p.logError "Shader not loaded"
  | some _ => p.buildDrawItem

/-- FullscreenTrianglePass::FrameBeginInternal (lines 191-223): clamp the
incoming viewport and scissor to the bound output image extent.  The extent
is read from the first output (or input/output) attachment, owned by the base
Pass class outside the excerpt; it is passed in here. -/
def Pass.frameBeginInternal (p : Pass) (params : FramePrepareParams)
    (targetImageSize : RHISize) : Pass :=
  { p with
    m_viewportState := clampViewport params.m_viewportState targetImageSize
    m_scissorState := clampScissor params.m_scissorState targetImageSize }

/-! ## Frame graph and command list model -/

/-- Model of the RHI FrameGraphInterface as used here: only the estimated
item count is set. -/
structure FrameGraph where
  estimatedItemCount : ℕ := 0
  deriving DecidableEq, Repr

/-- FullscreenTrianglePass::SetupFrameGraphDependencies (lines 227-231): after
the base-class bookkeeping, set the estimated item count to 1. -/
def Pass.setupFrameGraphDependencies (fg : FrameGraph) : FrameGraph :=
  { fg with estimatedItemCount := 1 }

/-- A command recorded on the RHI CommandList by the pass. -/
inductive Command where
  | setSrgsForDraw
  | setViewport (v : Viewport)
  | setScissor (s : Scissor)
  | submit (item : DrawItem)
  deriving DecidableEq, Repr

/-- FullscreenTrianglePass::BuildCommandListInternal (lines 248-258): set the
SRGs for the draw, the viewport and the scissor, then submit the single draw
item. -/
def Pass.buildCommandListInternal (p : Pass) : List Command :=
  [Command.setSrgsForDraw,
   Command.setViewport p.m_viewportState,
   Command.setScissor p.m_scissorState,
   Command.submit p.m_item]

/-- The draw items submitted by a command sequence. -/
def submittedItems (cmds : List Command) : List DrawItem :=
  cmds.filterMap fun c =>
    match c with
    | Command.submit item => some item
    | _ => none

/-- Modelled from the spec: the frame-graph scheduler and pass system that
drive the per-frame callbacks live outside the excerpt; per the spec a pass
whose configuration or shader failed to load is left inert by the pass system
(no pipeline built, no draw submitted), so the executor only reaches
BuildCommandListInternal for a pass that was queued for initialization. -/
def Pass.frameSubmits (p : Pass) : List DrawItem :=
  if p.queuedForInitialization then
    submittedItems p.initializeInternal.buildCommandListInternal
  else
    []

/-- The three early-return failure conditions of LoadShader: the descriptor
holds no FullscreenTrianglePassData; the shader asset cannot be resolved
(either its id is invalid so no lookup happens, or the lookup returns a
handle with an invalid id); or Shader FindOrCreate returns null. -/
def loadShaderFails (env : ShaderEnv) (descriptor : PassDescriptor) : Prop :=
  match descriptor.passData with
  | none => True
  | some passData =>
    let shaderAsset : ShaderAsset :=
      if passData.m_shaderAsset.m_assetId.IsValid then
        env.findShaderAsset passData.m_shaderAsset.m_assetId
          passData.m_shaderAsset.m_filePath
      else
        {}
    shaderAsset.m_assetId.IsValid = false ∨ env.findOrCreate shaderAsset = none

/-! ## GraphDocumentView model

GraphDocumentView.cpp is event glue: it tracks one document id, and on the
three document lifecycle events it activates or deactivates a graph in the
embedded canvas widget.  The GraphView base class, the request buses and the
canvas widget live outside the excerpt and are modelled with exactly the
behaviour this file observes of them. -/

/-- Model of AZ Uuid (the document identifier). -/
structure Uuid where
  val : ℕ := 0
  deriving DecidableEq, Repr

/-- Model of GraphCanvas GraphId (an entity id): default-constructed is the
invalid id. -/
structure GraphId where
  val : ℕ := 0
  deriving DecidableEq, Repr

/-- GraphId IsValid: not the default (invalid) id. -/
def GraphId.IsValid (g : GraphId) : Bool := g ≠ ({} : GraphId)

/-- Model of GraphCanvas ViewId. -/
structure ViewId where
  val : ℕ := 0
  deriving DecidableEq, Repr

/-- Per-event environment: the responses of the request buses the handler
queries.  getGraphId models GraphDocumentRequestBus GetGraphId for a document
id (an unhandled request leaves the default, invalid, GraphId); getViewId
models GraphCanvas SceneRequestBus GetViewId for a graph id. -/
structure DocEnv where
  getGraphId : Uuid → GraphId := fun _ => {}
  getViewId : GraphId → ViewId := fun _ => {}

/-- An observable effect of a GraphDocumentView handler: a call to the
GraphView base SetActiveGraphId (activating a graph in the canvas widget),
or a ShowEntireGraph event sent to a canvas view (centering it). -/
inductive ViewEffect where
  | setActiveGraph (graphId : GraphId) (notify : Bool)
  | showEntireGraph (viewId : ViewId)
  deriving DecidableEq, Repr

/-- State of a GraphDocumentView: the tracked document id, the
center-on-first-open latch, and (modelled from the spec: the GraphView base
stores the id passed to SetActiveGraphId as the graph active in the canvas)
the currently activated graph id. -/
structure View where
  m_documentId : Uuid := {}
  m_openedBefore : Bool := false
  activeGraphId : GraphId := {}
  deriving DecidableEq, Repr

/-- GraphDocumentView::OnDocumentOpened (lines 29-49).  For the tracked
document: fetch its graph id, activate it (notify true); if the view has not
centered before and the graph id is valid, fetch the scene view id and send
ShowEntireGraph to it, latching m_openedBefore.  For any other document:
activate the invalid GraphId (notify false). -/
def View.onDocumentOpened (env : DocEnv) (v : View) (documentId : Uuid) :
    View × List ViewEffect :=
  if v.m_documentId = documentId then
    let activeGraphId := env.getGraphId v.m_documentId
    let v1 := { v with activeGraphId := activeGraphId }
    if v.m_openedBefore = false ∧ activeGraphId.IsValid then
      let viewId := env.getViewId activeGraphId
      ({ v1 with m_openedBefore := true },
       [ViewEffect.setActiveGraph activeGraphId true,
        ViewEffect.showEntireGraph viewId])
    else
      (v1, [ViewEffect.setActiveGraph activeGraphId true])
  else
    ({ v with activeGraphId := {} },
     [ViewEffect.setActiveGraph {} false])

/-- GraphDocumentView::OnDocumentClosed (lines 51-57): deactivate the canvas
for the tracked document, do nothing for any other. -/
def View.onDocumentClosed (v : View) (documentId : Uuid) :
    View × List ViewEffect :=
  if v.m_documentId = documentId then
    ({ v with activeGraphId := {} }, [ViewEffect.setActiveGraph {} true])
  else
    (v, [])

/-- GraphDocumentView::OnDocumentDestroyed (lines 59-65): identical bodies
to OnDocumentClosed. -/
def View.onDocumentDestroyed (v : View) (documentId : Uuid) :
    View × List ViewEffect :=
  if v.m_documentId = documentId then
    ({ v with activeGraphId := {} }, [ViewEffect.setActiveGraph {} true])
  else
    (v, [])

/-- GraphDocumentView constructor (lines 14-22): initialize with the supplied
document id (m_openedBefore defaults to false), bus-connect, run
OnDocumentOpened for the tracked id once, then reset m_openedBefore to false
so that the first subsequent open also centers the view. -/
def View.construct (env : DocEnv) (documentId : Uuid) :
    View × List ViewEffect :=
  let v0 : View := { m_documentId := documentId }
  let r := v0.onDocumentOpened env documentId
  ({ r.1 with m_openedBefore := false }, r.2)

/-- Process a sequence of document-opened events for the tracked document id,
one environment (bus response set) per event, collecting each event's
effects. -/
def View.traceOpens (v : View) : List DocEnv → List (List ViewEffect)
  | [] => []
  | env :: rest =>
    let r := v.onDocumentOpened env v.m_documentId
    r.2 :: r.1.traceOpens rest

/-- Whether an effect list contains a ShowEntireGraph (view centering)
event. -/
def centersView (effects : List ViewEffect) : Bool :=
  effects.any fun e =>
    match e with
    | ViewEffect.showEntireGraph _ => true
    | _ => false

/-- The first effect of an event, used to state that each opened event
activates the fetched graph id before anything else. -/
def activationOf (effects : List ViewEffect) : Option ViewEffect :=
  effects.head?

/-- Marks the first position of a list of graph ids holding a valid id:
true there, false everywhere else. -/
def firstValidMark : List GraphId → List Bool
  | [] => []
  | g :: rest =>
    if g.IsValid then true :: rest.map (fun _ => false)
    else false :: firstValidMark rest

/-! ## Concrete sample values used by witnesses -/

/-- A sample shader with a Pass-slot SRG layout and a default draw SRG. -/
def sampleShader : Shader :=
  { m_assetId := { m_guid := 3 }
    supervariantIndex := 2
    passSrgLayout := some { name := 9 }
    defaultDrawSrg := some { layoutName := 4 } }

/-- A sample pass state carrying sampleShader and one data mapping. -/
def samplePass : Pass :=
  { m_passDescriptor := { dataMappings := [7] }
    m_shader := some sampleShader }

/-- The pass SRG that re-deriving samplePass is expected to produce. -/
def sampleSrg : ShaderResourceGroup :=
  { srcAsset := { m_guid := 3 }
    supervariant := 2
    layoutName := 9
    boundDataMappings := [7] }

/-! ## Theorems -/

/-- C2 counterexample: the claim says the clamped viewport maxX is the
minimum of the incoming maxX and the image width, for every params; but for
an incoming float maxX of 5/2 and width 5 the code first truncates 5/2 to the
integer 2 through the uint32_t cast, producing 2 rather than min (5/2) 5 =
5/2. -/
theorem C2_counterexample :
    ¬ ((Pass.frameBeginInternal {}
          { m_viewportState := { m_maxX := 5/2 } }
          { m_width := 5, m_height := 5 }).m_viewportState.m_maxX
        = min (5/2 : ℚ) ((5 : ℕ) : ℚ)) := by
  simp only [Pass.frameBeginInternal, clampViewport, f32ToU32]
  have h : ((5:ℚ)/2).floor = ⌊(5:ℚ)/2⌋ := rfl
  have hf : ((5:ℚ)/2).floor = 2 := by rw [h]; norm_num
  rw [hf]
  have h2 : Int.toNat 2 = 2 := rfl
  rw [h2]
  norm_num

/-- C2 (amended): for every pass, frame-prepare params and output-image size,
FrameBeginInternal sets each max coordinate to the minimum of the image extent
and the incoming coordinate converted to uint32_t (the viewport float
truncated toward zero, the scissor int32_t wrapped), converted back to the
field type, and sets each min coordinate to the minimum of the incoming min
and the already-clamped max. -/
theorem C2_frameBegin_clamps_via_uint32 (p : Pass)
    (params : FramePrepareParams) (size : RHISize) :
    ((p.frameBeginInternal params size).m_viewportState.m_maxX
        = ((min (f32ToU32 params.m_viewportState.m_maxX) size.m_width : ℕ) : ℚ)
      ∧ (p.frameBeginInternal params size).m_viewportState.m_maxY
        = ((min (f32ToU32 params.m_viewportState.m_maxY) size.m_height : ℕ) : ℚ)
      ∧ (p.frameBeginInternal params size).m_viewportState.m_minX
        = min params.m_viewportState.m_minX
            (p.frameBeginInternal params size).m_viewportState.m_maxX
      ∧ (p.frameBeginInternal params size).m_viewportState.m_minY
        = min params.m_viewportState.m_minY
            (p.frameBeginInternal params size).m_viewportState.m_maxY)
    ∧ ((p.frameBeginInternal params size).m_scissorState.m_maxX
        = u32ToI32 (min (i32ToU32 params.m_scissorState.m_maxX) size.m_width)
      ∧ (p.frameBeginInternal params size).m_scissorState.m_maxY
        = u32ToI32 (min (i32ToU32 params.m_scissorState.m_maxY) size.m_height)
      ∧ (p.frameBeginInternal params size).m_scissorState.m_minX
        = min params.m_scissorState.m_minX
            (p.frameBeginInternal params size).m_scissorState.m_maxX
      ∧ (p.frameBeginInternal params size).m_scissorState.m_minY
        = min params.m_scissorState.m_minY
            (p.frameBeginInternal params size).m_scissorState.m_maxY) := by
  refine ⟨⟨rfl, rfl, rfl, rfl⟩, ⟨rfl, rfl, rfl, rfl⟩⟩

/-- C8: after FrameBeginInternal, the viewport and scissor each satisfy
minX ≤ maxX and minY ≤ maxY, for every incoming params rectangle (degenerate
and inverted ones included) and every output-image size. -/
theorem C8_frameBegin_rects_ordered (p : Pass)
    (params : FramePrepareParams) (size : RHISize) :
    ((p.frameBeginInternal params size).m_viewportState.m_minX
        ≤ (p.frameBeginInternal params size).m_viewportState.m_maxX
      ∧ (p.frameBeginInternal params size).m_viewportState.m_minY
        ≤ (p.frameBeginInternal params size).m_viewportState.m_maxY)
    ∧ ((p.frameBeginInternal params size).m_scissorState.m_minX
        ≤ (p.frameBeginInternal params size).m_scissorState.m_maxX
      ∧ (p.frameBeginInternal params size).m_scissorState.m_minY
        ≤ (p.frameBeginInternal params size).m_scissorState.m_maxY) := by
  refine ⟨⟨?_, ?_⟩, ⟨?_, ?_⟩⟩ <;>
    simp [Pass.frameBeginInternal, clampViewport, clampScissor]

/-- Helper: a failing construction leaves the pass equal to its freshly
initialized state with exactly one error message appended. -/
theorem create_fail_eq (env : ShaderEnv) (d : PassDescriptor)
    (h : loadShaderFails env d) :
    ∃ msg : String,
      Pass.create env d = { m_passDescriptor := d, loggedErrors := [msg] } := by
  unfold Pass.create Pass.loadShader
  cases hd : d.passData with
  | none =>
    refine ⟨"Trying to construct without valid FullscreenTrianglePassData", ?_⟩
    simp [hd, Pass.logError]
  | some passData =>
    have h' : (if passData.m_shaderAsset.m_assetId.IsValid = true then
          env.findShaderAsset passData.m_shaderAsset.m_assetId
            passData.m_shaderAsset.m_filePath
        else ({} : ShaderAsset)).m_assetId.IsValid = false
        ∨ env.findOrCreate (if passData.m_shaderAsset.m_assetId.IsValid = true
            then env.findShaderAsset passData.m_shaderAsset.m_assetId
              passData.m_shaderAsset.m_filePath
          else ({} : ShaderAsset)) = none := by
      unfold loadShaderFails at h
      rw [hd] at h
      exact h
    refine ⟨"Failed to load shader", ?_⟩
    simp only [hd]
    cases hv : passData.m_shaderAsset.m_assetId.IsValid with
    | false =>
      rw [hv] at h'
      simp [hv, Pass.logError,
        show (({} : ShaderAsset)).m_assetId.IsValid = false from rfl]
    | true =>
      rw [hv] at h'
      simp only [if_true] at h' ⊢
      cases hfa : (env.findShaderAsset passData.m_shaderAsset.m_assetId
          passData.m_shaderAsset.m_filePath).m_assetId.IsValid with
      | false =>
        simp [hfa, Pass.logError]
      | true =>
        rw [hfa] at h'
        rcases h' with h1 | h2
        · exact absurd h1 (by simp)
        · simp [hfa, h2, Pass.logError]

/-- C5: when shader resolution fails during construction (missing pass data,
unresolvable shader asset, or a null Shader FindOrCreate result), the
constructed pass has logged an error and is inert: m_shader stays null, no
shader resource groups were created, and the pass was not queued for
initialization. -/
theorem C5_construct_failure_inert (env : ShaderEnv) (d : PassDescriptor)
    (h : loadShaderFails env d) :
    (Pass.create env d).loggedErrors ≠ []
    ∧ (Pass.create env d).m_shader = none
    ∧ (Pass.create env d).m_shaderResourceGroup = none
    ∧ (Pass.create env d).m_drawShaderResourceGroup = none
    ∧ (Pass.create env d).queuedForInitialization = false := by
  obtain ⟨msg, hmsg⟩ := create_fail_eq env d h
  rw [hmsg]
  simp

/-- C5 witness: a descriptor without pass data fails and leaves the pass
inert. -/
theorem C5_witness :
    loadShaderFails {} {}
    ∧ ((Pass.create {} {}).loggedErrors ≠ []
      ∧ (Pass.create {} {}).m_shader = none
      ∧ (Pass.create {} {}).m_shaderResourceGroup = none
      ∧ (Pass.create {} {}).m_drawShaderResourceGroup = none
      ∧ (Pass.create {} {}).queuedForInitialization = false) :=
  ⟨trivial, C5_construct_failure_inert {} {} trivial⟩

/-- C3: a pass whose configuration data is missing/invalid or whose shader
fails to load logs an error and is left inert: its state equals the freshly
initialized state except for the log, no pipeline is built (the draw item
holds no pipeline state), and no draw item is submitted in a frame.  The
model of LoadShader is a total function into Pass (not an error monad), which
is the no-failure-signal, no-termination behaviour of AZ_Error. -/
theorem C3_log_and_disable (env : ShaderEnv) (d : PassDescriptor)
    (h : loadShaderFails env d) :
    (Pass.create env d).loggedErrors ≠ []
    ∧ { Pass.create env d with loggedErrors := [] }
        = ({ m_passDescriptor := d } : Pass)
    ∧ (Pass.create env d).m_item.m_pipelineState = none
    ∧ (Pass.create env d).frameSubmits = [] := by
  obtain ⟨msg, hmsg⟩ := create_fail_eq env d h
  rw [hmsg]
  refine ⟨by simp, rfl, rfl, ?_⟩
  simp [Pass.frameSubmits]

/-- C3 witness: a descriptor whose shader asset reference has an invalid id
fails and leaves the pass inert. -/
theorem C3_witness :
    loadShaderFails {} { passData := some {} }
    ∧ ((Pass.create {} { passData := some {} }).loggedErrors ≠ []
      ∧ { Pass.create {} { passData := some {} } with loggedErrors := [] }
          = ({ m_passDescriptor := { passData := some {} } } : Pass)
      ∧ (Pass.create {} { passData := some {} }).m_item.m_pipelineState = none
      ∧ (Pass.create {} { passData := some {} }).frameSubmits = []) :=
  ⟨Or.inl rfl, C3_log_and_disable {} { passData := some {} } (Or.inl rfl)⟩

/-- C1: BuildDrawItem produces a non-indexed (linear) draw of exactly 3
vertices with TriangleList topology and no vertex or index buffer references
(the geometry-buffer fields, never written anywhere in the file, keep their
empty defaults), BuildCommandListInternal submits exactly this one item, and
SetupFrameGraphDependencies sets the frame graph estimated item count to
1. -/
theorem C1_single_triangle_draw (p : Pass) (fg : FrameGraph)
    (hs : p.m_item.m_streamBufferViews = [])
    (hi : p.m_item.m_indexBufferView = none) :
    p.buildDrawItem.m_item.m_arguments
        = DrawArguments.linear { m_vertexCount := 3 }
    ∧ p.buildDrawItem.m_item.m_arguments.isLinear = true
    ∧ (∃ ps : PipelineState,
        p.buildDrawItem.m_item.m_pipelineState = some ps
        ∧ ps.desc.inputStreamLayout
          = some { topology := .TriangleList, finalized := true })
    ∧ p.buildDrawItem.m_item.m_streamBufferViews = []
    ∧ p.buildDrawItem.m_item.m_indexBufferView = none
    ∧ submittedItems p.buildDrawItem.buildCommandListInternal
        = [p.buildDrawItem.m_item]
    ∧ (Pass.setupFrameGraphDependencies fg).estimatedItemCount = 1 := by
  refine ⟨rfl, rfl, ⟨_, rfl, rfl⟩, ?_, ?_, ?_, rfl⟩
  · simpa [Pass.buildDrawItem] using hs
  · simpa [Pass.buildDrawItem] using hi
  · simp [Pass.buildCommandListInternal, submittedItems]

/-- C1 witness: the default pass state has an empty draw item, and building
its draw item yields the single 3-vertex triangle-list draw. -/
theorem C1_witness :
    (({} : Pass).m_item.m_streamBufferViews = []
      ∧ ({} : Pass).m_item.m_indexBufferView = none)
    ∧ ((({} : Pass).buildDrawItem.m_item.m_arguments
        = DrawArguments.linear { m_vertexCount := 3 })
      ∧ submittedItems ({} : Pass).buildDrawItem.buildCommandListInternal
        = [({} : Pass).buildDrawItem.m_item]
      ∧ (Pass.setupFrameGraphDependencies {}).estimatedItemCount = 1) := by
  have h := C1_single_triangle_draw {} {} rfl rfl
  exact ⟨⟨rfl, rfl⟩, h.1, h.2.2.2.2.2.1, h.2.2.2.2.2.2⟩

/-- C6: on a shader hot-reload notification (OnShaderReinitialized or
OnShaderAssetReinitialized, which run the identical UpdateSrgs), a pass with
a loaded shader having a Pass-slot SRG layout recreates its pass SRG from
that layout with the descriptor data mappings rebound, recreates the default
draw SRG, and updates the pipeline-state SRG variant fallback to the new pass
SRG. -/
theorem C6_reload_rederives_srgs (p : Pass) (sh : Shader) (layout : SrgLayout)
    (h1 : p.m_shader = some sh) (h2 : sh.passSrgLayout = some layout) :
    p.onShaderReinitialized.m_shaderResourceGroup
        = some (bindDataMappingsToSrg p.m_passDescriptor
            (ShaderResourceGroup.create sh.m_assetId sh.supervariantIndex
              layout.name))
    ∧ (bindDataMappingsToSrg p.m_passDescriptor
          (ShaderResourceGroup.create sh.m_assetId sh.supervariantIndex
            layout.name)).boundDataMappings = p.m_passDescriptor.dataMappings
    ∧ p.onShaderReinitialized.m_drawShaderResourceGroup = sh.defaultDrawSrg
    ∧ p.onShaderReinitialized.m_pipelineStateForDraw.srgVariantFallback
        = p.onShaderReinitialized.m_shaderResourceGroup
    ∧ p.onShaderAssetReinitialized = p.onShaderReinitialized := by
  unfold Pass.onShaderReinitialized Pass.onShaderAssetReinitialized
  unfold Pass.updateSrgs
  rw [h1]
  simp [h2, bindDataMappingsToSrg, PipelineStateForDraw.updateSrgVariantFallback]

/-- C6 witness: a concrete pass with a loaded shader carrying a Pass-slot
layout re-derives its SRG bindings on reload. -/
theorem C6_witness :
    samplePass.onShaderReinitialized.m_shaderResourceGroup = some sampleSrg
    ∧ samplePass.onShaderReinitialized.m_drawShaderResourceGroup
      = some { layoutName := 4 } := by
  have h := C6_reload_rederives_srgs samplePass sampleShader { name := 9 }
    rfl rfl
  exact ⟨h.1, h.2.2.1⟩

/-- C10: with no shader loaded, UpdateSrgs is a no-op (so shader-reload
notifications before a successful load change nothing) and UpdateShaderOptions
changes nothing either. -/
theorem C10_null_shader_noop (p : Pass) (shaderOptions : List ℕ)
    (h : p.m_shader = none) :
    p.updateSrgs = p
    ∧ p.onShaderReinitialized = p
    ∧ p.onShaderAssetReinitialized = p
    ∧ p.updateShaderOptions shaderOptions = p := by
  have hsrg : p.updateSrgs = p := by
    unfold Pass.updateSrgs
    rw [h]
  refine ⟨hsrg, hsrg, hsrg, ?_⟩
  unfold Pass.updateShaderOptions
  rw [h]

/-- C10 witness: the default (shaderless) pass is untouched by SRG updates
and shader-option updates. -/
theorem C10_witness :
    ({} : Pass).updateSrgs = ({} : Pass)
    ∧ ({} : Pass).onShaderReinitialized = ({} : Pass)
    ∧ ({} : Pass).onShaderAssetReinitialized = ({} : Pass)
    ∧ ({} : Pass).updateShaderOptions [5] = ({} : Pass) :=
  C10_null_shader_noop {} [5] rfl

/-- C7: a document-closed or document-destroyed event for the tracked
document id deactivates the canvas (the active graph id is set to the
invalid default GraphId, via SetActiveGraphId with the default id); an event
for any other id leaves the view state and the canvas untouched. -/
theorem C7_close_destroy_deactivate (v : View) (documentId : Uuid) :
    (v.m_documentId = documentId →
      (v.onDocumentClosed documentId).1.activeGraphId = ({} : GraphId)
      ∧ (v.onDocumentClosed documentId).2
        = [ViewEffect.setActiveGraph {} true]
      ∧ (v.onDocumentDestroyed documentId).1.activeGraphId = ({} : GraphId)
      ∧ (v.onDocumentDestroyed documentId).2
        = [ViewEffect.setActiveGraph {} true])
    ∧ (v.m_documentId ≠ documentId →
      v.onDocumentClosed documentId = (v, [])
      ∧ v.onDocumentDestroyed documentId = (v, [])) := by
  constructor
  · intro h
    simp [View.onDocumentClosed, View.onDocumentDestroyed, h]
  · intro h
    simp [View.onDocumentClosed, View.onDocumentDestroyed, h]

/-- C7 witness: a view tracking document 1 deactivates on close of document
1 and ignores close of document 2. -/
theorem C7_witness :
    ((View.onDocumentClosed { m_documentId := ⟨1⟩, activeGraphId := ⟨5⟩ }
        ⟨1⟩).1.activeGraphId = ({} : GraphId))
    ∧ (View.onDocumentClosed { m_documentId := ⟨1⟩, activeGraphId := ⟨5⟩ }
        ⟨2⟩ = ({ m_documentId := ⟨1⟩, activeGraphId := ⟨5⟩ }, [])) := by
  refine ⟨((C7_close_destroy_deactivate
      { m_documentId := ⟨1⟩, activeGraphId := ⟨5⟩ } ⟨1⟩).1 rfl).1, ?_⟩
  exact ((C7_close_destroy_deactivate
      { m_documentId := ⟨1⟩, activeGraphId := ⟨5⟩ } ⟨2⟩).2 (by decide)).1

/-- C9: a document-opened event for a different document id deactivates the
canvas without centering: the active graph id becomes the invalid default,
the only effect is SetActiveGraphId with the default id and notify false, no
ShowEntireGraph is sent, and the tracked id and the opened-before latch are
unchanged. -/
theorem C9_open_other_doc_deactivates (env : DocEnv) (v : View)
    (documentId : Uuid) (h : v.m_documentId ≠ documentId) :
    (v.onDocumentOpened env documentId).1.activeGraphId = ({} : GraphId)
    ∧ (v.onDocumentOpened env documentId).2
      = [ViewEffect.setActiveGraph {} false]
    ∧ centersView (v.onDocumentOpened env documentId).2 = false
    ∧ (v.onDocumentOpened env documentId).1.m_documentId = v.m_documentId
    ∧ (v.onDocumentOpened env documentId).1.m_openedBefore
      = v.m_openedBefore := by
  simp [View.onDocumentOpened, h, centersView]

/-- C9 witness: a view tracking document 1 deactivates without centering on
open of document 2. -/
theorem C9_witness :
    (View.onDocumentOpened {} { m_documentId := ⟨1⟩, activeGraphId := ⟨5⟩ }
        ⟨2⟩).1.activeGraphId = ({} : GraphId)
    ∧ centersView (View.onDocumentOpened {}
        { m_documentId := ⟨1⟩, activeGraphId := ⟨5⟩ } ⟨2⟩).2 = false := by
  have h := C9_open_other_doc_deactivates {}
    { m_documentId := ⟨1⟩, activeGraphId := ⟨5⟩ } ⟨2⟩ (by decide)
  exact ⟨h.1, h.2.2.1⟩

/-- Helper: opening the tracked document preserves the tracked id. -/
theorem opened_self_docId (env : DocEnv) (v : View) :
    (v.onDocumentOpened env v.m_documentId).1.m_documentId
      = v.m_documentId := by
  unfold View.onDocumentOpened
  rw [if_pos rfl]
  dsimp only
  split <;> rfl

/-- Helper: opening the tracked document latches m_openedBefore exactly when
it was already latched or the fetched graph id is valid. -/
theorem opened_self_latch (env : DocEnv) (v : View) :
    (v.onDocumentOpened env v.m_documentId).1.m_openedBefore
      = (v.m_openedBefore || (env.getGraphId v.m_documentId).IsValid) := by
  unfold View.onDocumentOpened
  rw [if_pos rfl]
  cases hb : v.m_openedBefore <;>
    cases hg : (env.getGraphId v.m_documentId).IsValid <;>
      simp [hb, hg]

/-- Helper: opening the tracked document centers the view exactly when the
latch is clear and the fetched graph id is valid. -/
theorem opened_self_centers (env : DocEnv) (v : View) :
    centersView (v.onDocumentOpened env v.m_documentId).2
      = (!v.m_openedBefore && (env.getGraphId v.m_documentId).IsValid) := by
  unfold View.onDocumentOpened
  rw [if_pos rfl]
  cases hb : v.m_openedBefore <;>
    cases hg : (env.getGraphId v.m_documentId).IsValid <;>
      simp [hb, hg, centersView]

/-- Helper: opening the tracked document first activates the graph id
fetched from the document, with notification. -/
theorem opened_self_activation (env : DocEnv) (v : View) :
    activationOf (v.onDocumentOpened env v.m_documentId).2
      = some (ViewEffect.setActiveGraph (env.getGraphId v.m_documentId)
          true) := by
  unfold View.onDocumentOpened
  rw [if_pos rfl]
  dsimp only
  split <;> rfl

/-- Helper: every opened event in a trace starts by activating the graph id
fetched for the tracked document. -/
theorem traceOpens_activations (envs : List DocEnv) : ∀ v : View,
    (v.traceOpens envs).map activationOf
      = envs.map (fun env =>
          some (ViewEffect.setActiveGraph (env.getGraphId v.m_documentId)
            true)) := by
  induction envs with
  | nil => intro v; rfl
  | cons env rest ih =>
    intro v
    simp only [View.traceOpens, List.map_cons]
    rw [opened_self_activation, ih]
    simp only [opened_self_docId]

/-- Helper: once the latch is set, no event of a trace ever centers the
view again. -/
theorem traceOpens_no_center_after_latch (envs : List DocEnv) : ∀ v : View,
    v.m_openedBefore = true →
    (v.traceOpens envs).map centersView = envs.map (fun _ => false) := by
  induction envs with
  | nil => intro v _; rfl
  | cons env rest ih =>
    intro v hv
    simp only [View.traceOpens, List.map_cons]
    rw [opened_self_centers, hv]
    rw [ih _ (by rw [opened_self_latch, hv]; rfl)]
    rfl

/-- Helper: from a clear latch, the centering pattern of a trace marks
exactly the first event whose fetched graph id is valid. -/
theorem traceOpens_centers_first (envs : List DocEnv) : ∀ v : View,
    v.m_openedBefore = false →
    (v.traceOpens envs).map centersView
      = firstValidMark (envs.map (fun env => env.getGraphId v.m_documentId))
      := by
  induction envs with
  | nil => intro v _; rfl
  | cons env rest ih =>
    intro v hv
    simp only [View.traceOpens, List.map_cons, firstValidMark]
    cases hg : (env.getGraphId v.m_documentId).IsValid with
    | true =>
      rw [opened_self_centers, hv, hg]
      rw [traceOpens_no_center_after_latch rest _
        (by rw [opened_self_latch, hv, hg]; rfl)]
      simp [List.map_map]
    | false =>
      rw [opened_self_centers, hv, hg]
      rw [ih _ (by rw [opened_self_latch, hv, hg]; rfl)]
      simp [opened_self_docId, hg, firstValidMark]

/-- C4: for a freshly constructed view and any sequence of document-opened
events for its tracked document id (with arbitrary bus responses per event),
every event activates the graph id fetched from the document, and the view
is centered (ShowEntireGraph) exactly at the first event whose fetched graph
id is valid, never at any later event. -/
theorem C4_center_only_on_first_open (env0 : DocEnv) (documentId : Uuid)
    (envs : List DocEnv) :
    (((View.construct env0 documentId).1.traceOpens envs).map activationOf
      = envs.map (fun env =>
          some (ViewEffect.setActiveGraph (env.getGraphId documentId) true)))
    ∧ (((View.construct env0 documentId).1.traceOpens envs).map centersView
      = firstValidMark (envs.map (fun env => env.getGraphId documentId))) := by
  have hdoc : (View.construct env0 documentId).1.m_documentId = documentId :=
    opened_self_docId env0 { m_documentId := documentId }
  have hopened : (View.construct env0 documentId).1.m_openedBefore = false :=
    rfl
  refine ⟨?_, ?_⟩
  · rw [traceOpens_activations, hdoc]
  · rw [traceOpens_centers_first envs _ hopened, hdoc]

end AtomExcerpt
